import Mathlib

/-!
Shallow embedding of `src/src/instruction.rs` (token instruction codec and
instruction builders), together with theorems about the properties stated in
the specification.

Byte buffers are modelled as `List (Fin 256)`; `u64` values as `Fin (2^64)`;
fallible Rust functions returning `Result<_, ProgramError>` are modelled as
`Except ProgramError _`.
-/

namespace SplToken

/-- Decidable equality of `Except` results, so that concrete codec runs can
be checked by evaluation. -/
instance instExceptDecEq {ε α : Type} [DecidableEq ε] [DecidableEq α] :
    DecidableEq (Except ε α)
  | .error e, .error f =>
      if h : e = f then .isTrue (by rw [h]) else .isFalse (by simp [h])
  | .error _, .ok _ => .isFalse (by simp)
  | .ok _, .error _ => .isFalse (by simp)
  | .ok a, .ok b =>
      if h : a = b then .isTrue (by rw [h]) else .isFalse (by simp [h])

/-- A single byte (`u8`). -/
abbrev Byte := Fin 256

/-- A 64-bit unsigned integer value (`u64`), `2 ^ 64 = 18446744073709551616`. -/
abbrev U64 := Fin 18446744073709551616

/-- Rust `Pubkey`: an opaque 32-byte account identifier. -/
abbrev Pubkey := {l : List Byte // l.length = 32}

/-- The error kinds surfaced by this core. `invalidInstruction` models
`TokenError::InvalidInstruction.into()`; `missingRequiredSignature` models
`ProgramError::MissingRequiredSignature`; `incorrectProgramId` models the
error returned by the external `check_program_account` collaborator. -/
inductive ProgramError
  | invalidInstruction
  | missingRequiredSignature
  | incorrectProgramId
deriving DecidableEq, Repr

/-- Minimum number of multisignature signers (`MIN_SIGNERS` in the source). -/
def MIN_SIGNERS : Nat := 1

/-- Maximum number of multisignature signers (`MAX_SIGNERS` in the source). -/
def MAX_SIGNERS : Nat := 1

/-- The `TokenInstruction` enum exactly as declared in `src/src/instruction.rs`:
it has only the seven variants `InitializeMint`, `InitializeAccount`,
`Transfer`, `Approve`, `MintTo`, `Burn`, `InitializeAccount2`. -/
inductive TokenInstruction
  | initializeMint (decimals : Byte) (mint_authority : Pubkey)
      (freeze_authority : Option Pubkey)
  | initializeAccount
  | transfer (amount : U64)
  | approve (amount : U64)
  | mintTo (amount : U64)
  | burn (amount : U64)
  | initializeAccount2 (owner : Pubkey)
deriving DecidableEq, Repr

/-- Rust `u64::from_le_bytes` on eight bytes. -/
def u64_from_le_bytes (b0 b1 b2 b3 b4 b5 b6 b7 : Byte) : U64 :=
  ⟨b0.val + 256 * b1.val + 65536 * b2.val + 16777216 * b3.val
      + 4294967296 * b4.val + 1099511627776 * b5.val
      + 281474976710656 * b6.val + 72057594037927936 * b7.val, by
    have h0 := b0.isLt
    have h1 := b1.isLt
    have h2 := b2.isLt
    have h3 := b3.isLt
    have h4 := b4.isLt
    have h5 := b5.isLt
    have h6 := b6.isLt
    have h7 := b7.isLt
    omega⟩

/-- Rust `u64::to_le_bytes`: the eight little-endian bytes of a `u64`. -/
def u64_to_le_bytes (a : U64) : List Byte :=
  [⟨a.val % 256, Nat.mod_lt _ (by omega)⟩,
   ⟨a.val / 256 % 256, Nat.mod_lt _ (by omega)⟩,
   ⟨a.val / 65536 % 256, Nat.mod_lt _ (by omega)⟩,
   ⟨a.val / 16777216 % 256, Nat.mod_lt _ (by omega)⟩,
   ⟨a.val / 4294967296 % 256, Nat.mod_lt _ (by omega)⟩,
   ⟨a.val / 1099511627776 % 256, Nat.mod_lt _ (by omega)⟩,
   ⟨a.val / 281474976710656 % 256, Nat.mod_lt _ (by omega)⟩,
   ⟨a.val / 72057594037927936 % 256, Nat.mod_lt _ (by omega)⟩]

/-- Rust `TokenInstruction::unpack_pubkey`: reads 32 bytes as a `Pubkey` and
returns the remaining input; fails with `InvalidInstruction` when fewer
than 32 bytes remain. -/
def unpack_pubkey (input : List Byte) :
    Except ProgramError (Pubkey × List Byte) :=
  if h : 32 ≤ input.length then
    .ok (⟨input.take 32, by rw [List.length_take]; exact Nat.min_eq_left h⟩,
         input.drop 32)
  else
    .error .invalidInstruction

/-- Rust `TokenInstruction::unpack_pubkey_option`: discriminant byte `0` means
`None`; discriminant `1` followed by at least 32 bytes means `Some`;
anything else fails with `InvalidInstruction`. -/
def unpack_pubkey_option (input : List Byte) :
    Except ProgramError (Option Pubkey × List Byte) :=
  match input with
  | [] => .error .invalidInstruction
  | d :: rest =>
      if d.val = 0 then
        .ok (none, rest)
      else if h : d.val = 1 ∧ 32 ≤ rest.length then
        .ok (some ⟨rest.take 32, by
               rw [List.length_take]; exact Nat.min_eq_left h.2⟩,
             rest.drop 32)
      else
        .error .invalidInstruction

/-- Rust `TokenInstruction::pack_pubkey_option`: the bytes appended to the buffer
for an optional pubkey (`1` followed by the 32 key bytes, or just `0`). -/
def pack_pubkey_option : Option Pubkey → List Byte
  | some key => 1 :: key.val
  | none => [0]

/-- Rust `TokenInstruction::pack`: the byte buffer produced for each of the
variants declared in the source enum. -/
def TokenInstruction.pack : TokenInstruction → List Byte
  | .initializeMint decimals mint_authority freeze_authority =>
      0 :: decimals :: (mint_authority.val ++ pack_pubkey_option freeze_authority)
  | .initializeAccount => [1]
  | .transfer amount => 3 :: u64_to_le_bytes amount
  | .approve amount => 4 :: u64_to_le_bytes amount
  | .mintTo amount => 7 :: u64_to_le_bytes amount
  | .burn amount => 8 :: u64_to_le_bytes amount
  | .initializeAccount2 owner => 16 :: owner.val

/-- The `rest.get(..8)` + `u64::from_le_bytes` amount read used by the
tags `3 | 4 | 7 | 8` arm of `unpack`: succeeds on the first eight bytes
(ignoring anything beyond them), fails when fewer than eight remain. -/
def read_amount (rest : List Byte) : Except ProgramError U64 :=
  match rest with
  | b0 :: b1 :: b2 :: b3 :: b4 :: b5 :: b6 :: b7 :: _ =>
      .ok (u64_from_le_bytes b0 b1 b2 b3 b4 b5 b6 b7)
  | _ => .error .invalidInstruction

/-- Rust `TokenInstruction::unpack` exactly as in the source: it dispatches only
on the tags `0`, `1`, `3 | 4 | 7 | 8` and `16`; every other leading byte
(including `2`, `5`, `6`, `9`–`15`) falls to the catch-all
`Err(InvalidInstruction)` arm. -/
def TokenInstruction.unpack (input : List Byte) :
    Except ProgramError TokenInstruction :=
  match input with
  | [] => .error .invalidInstruction
  | tag :: rest =>
      if tag.val = 0 then
        match rest with
        | [] => .error .invalidInstruction
        | decimals :: rest =>
            match unpack_pubkey rest with
            | .error e => .error e
            | .ok (mint_authority, rest) =>
                match unpack_pubkey_option rest with
                | .error e => .error e
                | .ok (freeze_authority, _) =>
                    .ok (.initializeMint decimals mint_authority freeze_authority)
      else if tag.val = 1 then
        .ok .initializeAccount
      else if tag.val = 3 ∨ tag.val = 4 ∨ tag.val = 7 ∨ tag.val = 8 then
        match read_amount rest with
        | .error e => .error e
        | .ok amount =>
            if tag.val = 3 then .ok (.transfer amount)
            else if tag.val = 4 then .ok (.approve amount)
            else if tag.val = 7 then .ok (.mintTo amount)
            else .ok (.burn amount)
      else if tag.val = 16 then
        match unpack_pubkey rest with
        | .error e => .error e
        | .ok (owner, _) => .ok (.initializeAccount2 owner)
      else
        .error .invalidInstruction

/-- Rust `AuthorityType`: the four authority kinds for `SetAuthority`. -/
inductive AuthorityType
  | mintTokens
  | freezeAccount
  | accountOwner
  | closeAccount
deriving DecidableEq, Repr

/-- Rust `AuthorityType::into`: the fixed kind-to-byte mapping. -/
def AuthorityType.into : AuthorityType → Byte
  | .mintTokens => 0
  | .freezeAccount => 1
  | .accountOwner => 2
  | .closeAccount => 3

/-- Rust `AuthorityType::from` (named `fromByte` here since `from` is a Lean
keyword): byte-to-kind, failing with `InvalidInstruction` outside 0–3. -/
def AuthorityType.fromByte (index : Byte) : Except ProgramError AuthorityType :=
  if index.val = 0 then .ok .mintTokens
  else if index.val = 1 then .ok .freezeAccount
  else if index.val = 2 then .ok .accountOwner
  else if index.val = 3 then .ok .closeAccount
  else .error .invalidInstruction

/-- Rust `AccountMeta`: one account reference of an instruction envelope. -/
structure AccountMeta where
  pubkey : Pubkey
  is_signer : Bool
  is_writable : Bool
deriving DecidableEq, Repr

/-- Rust `AccountMeta::new`: a writable account reference. -/
def AccountMeta.new (pubkey : Pubkey) (s : Bool) : AccountMeta :=
  ⟨pubkey, s, true⟩

/-- Rust `AccountMeta::new_readonly`: a read-only account reference. -/
def AccountMeta.new_readonly (pubkey : Pubkey) (s : Bool) : AccountMeta :=
  ⟨pubkey, s, false⟩

/-- Rust `Instruction`: the envelope handed to the runtime (target program
identifier, ordered account references, payload bytes). -/
structure Instruction where
  program_id : Pubkey
  accounts : List AccountMeta
  data : List Byte
deriving DecidableEq, Repr

/-- Modelled from the spec: `check_program_account` lives in the crate root,
not under `src/`; per §6 it confirms the target program identifier equals the
expected protocol identifier and fails otherwise. The expected identifier is
external, so it is passed explicitly as `expected_id`. -/
def check_program_account (expected_id token_program_id : Pubkey) :
    Except ProgramError Unit :=
  if token_program_id = expected_id then .ok () else .error .incorrectProgramId

/-- Modelled from the spec: the well-known rent sysvar identifier (§6,
`sysvar::rent::id()`), an externally defined constant inserted verbatim into
several fixed account prefixes; its value is opaque to this core and is fixed
here arbitrarily. -/
def rent_sysvar_id : Pubkey := ⟨List.replicate 32 0, by simp⟩

/-- Modelled from the spec: §4.1 wire layout for tag 2 `InitializeMultisig`
(`m:1B`); this variant is referenced by the `initialize_multisig` builder and
the in-file tests but is absent from the `TokenInstruction` enum in
`src/src/instruction.rs`. -/
def pack_initialize_multisig (m : Byte) : List Byte := [2, m]

/-- Modelled from the spec: §4.1 wire layout for tag 5 `Revoke` (no fields);
the variant is referenced by the `revoke` builder and the in-file tests but is
absent from the `TokenInstruction` enum in `src/src/instruction.rs`. -/
def pack_revoke : List Byte := [5]

/-- Modelled from the spec: §4.1 wire layout for tag 6 `SetAuthority`
(`authority_type:1B`, `new_authority: OptionalIdentifier`); the variant is
referenced by the `set_authority` builder and the in-file tests but is absent
from the `TokenInstruction` enum in `src/src/instruction.rs`. -/
def pack_set_authority (authority_type : AuthorityType)
    (new_authority : Option Pubkey) : List Byte :=
  6 :: authority_type.into :: pack_pubkey_option new_authority

/-- Modelled from the spec: §4.1 wire layout for tag 9 `CloseAccount`
(no fields); absent from the source enum (see `pack_revoke`). -/
def pack_close_account : List Byte := [9]

/-- Modelled from the spec: §4.1 wire layout for tag 10 `FreezeAccount`
(no fields); absent from the source enum (see `pack_revoke`). -/
def pack_freeze_account : List Byte := [10]

/-- Modelled from the spec: §4.1 wire layout for tag 11 `ThawAccount`
(no fields); absent from the source enum (see `pack_revoke`). -/
def pack_thaw_account : List Byte := [11]

/-- Modelled from the spec: §4.1 wire layout for tag 12 `TransferChecked`
(`amount:8B LE`, `decimals:1B`); absent from the source enum
(see `pack_revoke`). -/
def pack_transfer_checked (amount : U64) (decimals : Byte) : List Byte :=
  12 :: u64_to_le_bytes amount ++ [decimals]

/-- Modelled from the spec: §4.1 wire layout for tag 13 `ApproveChecked`
(`amount:8B LE`, `decimals:1B`); absent from the source enum
(see `pack_revoke`). -/
def pack_approve_checked (amount : U64) (decimals : Byte) : List Byte :=
  13 :: u64_to_le_bytes amount ++ [decimals]

/-- Modelled from the spec: §4.1 wire layout for tag 14 `MintToChecked`
(`amount:8B LE`, `decimals:1B`); absent from the source enum
(see `pack_revoke`). -/
def pack_mint_to_checked (amount : U64) (decimals : Byte) : List Byte :=
  14 :: u64_to_le_bytes amount ++ [decimals]

/-- Modelled from the spec: §4.1 wire layout for tag 15 `BurnChecked`
(`amount:8B LE`, `decimals:1B`); absent from the source enum
(see `pack_revoke`). -/
def pack_burn_checked (amount : U64) (decimals : Byte) : List Byte :=
  15 :: u64_to_le_bytes amount ++ [decimals]

/-- Rust `is_valid_signer_index`: checks the index lies in
`MIN_SIGNERS..=MAX_SIGNERS`. -/
def is_valid_signer_index (index : Nat) : Bool :=
  decide (MIN_SIGNERS ≤ index ∧ index ≤ MAX_SIGNERS)

/-- Builder `initialize_mint`. -/
def initialize_mint (expected_id token_program_id mint_pubkey
    mint_authority_pubkey : Pubkey) (freeze_authority_pubkey : Option Pubkey)
    (decimals : Byte) : Except ProgramError Instruction :=
  match check_program_account expected_id token_program_id with
  | .error e => .error e
  | .ok _ =>
      .ok { program_id := token_program_id,
            accounts := [AccountMeta.new mint_pubkey false,
                         AccountMeta.new_readonly rent_sysvar_id false],
            data := (TokenInstruction.initializeMint decimals
                       mint_authority_pubkey freeze_authority_pubkey).pack }

/-- Builder `initialize_account`. -/
def initialize_account (expected_id token_program_id account_pubkey
    mint_pubkey owner_pubkey : Pubkey) : Except ProgramError Instruction :=
  match check_program_account expected_id token_program_id with
  | .error e => .error e
  | .ok _ =>
      .ok { program_id := token_program_id,
            accounts := [AccountMeta.new account_pubkey false,
                         AccountMeta.new_readonly mint_pubkey false,
                         AccountMeta.new_readonly owner_pubkey false,
                         AccountMeta.new_readonly rent_sysvar_id false],
            data := TokenInstruction.initializeAccount.pack }

/-- Builder `initialize_account2`. -/
def initialize_account2 (expected_id token_program_id account_pubkey
    mint_pubkey owner_pubkey : Pubkey) : Except ProgramError Instruction :=
  match check_program_account expected_id token_program_id with
  | .error e => .error e
  | .ok _ =>
      .ok { program_id := token_program_id,
            accounts := [AccountMeta.new account_pubkey false,
                         AccountMeta.new_readonly mint_pubkey false,
                         AccountMeta.new_readonly rent_sysvar_id false],
            data := (TokenInstruction.initializeAccount2 owner_pubkey).pack }

/-- Builder `initialize_multisig`: validates the signer-count bounds before
producing the envelope. -/
def initialize_multisig (expected_id token_program_id multisig_pubkey : Pubkey)
    (signer_pubkeys : List Pubkey) (m : Byte) :
    Except ProgramError Instruction :=
  match check_program_account expected_id token_program_id with
  | .error e => .error e
  | .ok _ =>
      if ¬ is_valid_signer_index m.val
          ∨ ¬ is_valid_signer_index signer_pubkeys.length
          ∨ signer_pubkeys.length < m.val then
        .error .missingRequiredSignature
      else
        .ok { program_id := token_program_id,
              accounts := [AccountMeta.new multisig_pubkey false,
                           AccountMeta.new_readonly rent_sysvar_id false]
                ++ signer_pubkeys.map (fun s => AccountMeta.new_readonly s false),
              data := pack_initialize_multisig m }

/-- Builder `transfer`. -/
def transfer (expected_id token_program_id source_pubkey destination_pubkey
    authority_pubkey : Pubkey) (signer_pubkeys : List Pubkey) (amount : U64) :
    Except ProgramError Instruction :=
  match check_program_account expected_id token_program_id with
  | .error e => .error e
  | .ok _ =>
      .ok { program_id := token_program_id,
            accounts := [AccountMeta.new source_pubkey false,
                         AccountMeta.new destination_pubkey false,
                         AccountMeta.new_readonly authority_pubkey
                           signer_pubkeys.isEmpty]
              ++ signer_pubkeys.map (fun s => AccountMeta.new_readonly s true),
            data := (TokenInstruction.transfer amount).pack }

/-- Builder `approve`. -/
def approve (expected_id token_program_id source_pubkey delegate_pubkey
    owner_pubkey : Pubkey) (signer_pubkeys : List Pubkey) (amount : U64) :
    Except ProgramError Instruction :=
  match check_program_account expected_id token_program_id with
  | .error e => .error e
  | .ok _ =>
      .ok { program_id := token_program_id,
            accounts := [AccountMeta.new source_pubkey false,
                         AccountMeta.new_readonly delegate_pubkey false,
                         AccountMeta.new_readonly owner_pubkey
                           signer_pubkeys.isEmpty]
              ++ signer_pubkeys.map (fun s => AccountMeta.new_readonly s true),
            data := (TokenInstruction.approve amount).pack }

/-- Builder `revoke`. -/
def revoke (expected_id token_program_id source_pubkey owner_pubkey : Pubkey)
    (signer_pubkeys : List Pubkey) : Except ProgramError Instruction :=
  match check_program_account expected_id token_program_id with
  | .error e => .error e
  | .ok _ =>
      .ok { program_id := token_program_id,
            accounts := [AccountMeta.new source_pubkey false,
                         AccountMeta.new_readonly owner_pubkey
                           signer_pubkeys.isEmpty]
              ++ signer_pubkeys.map (fun s => AccountMeta.new_readonly s true),
            data := pack_revoke }

/-- Builder `set_authority`. -/
def set_authority (expected_id token_program_id owned_pubkey : Pubkey)
    (new_authority_pubkey : Option Pubkey) (authority_type : AuthorityType)
    (owner_pubkey : Pubkey) (signer_pubkeys : List Pubkey) :
    Except ProgramError Instruction :=
  match check_program_account expected_id token_program_id with
  | .error e => .error e
  | .ok _ =>
      .ok { program_id := token_program_id,
            accounts := [AccountMeta.new owned_pubkey false,
                         AccountMeta.new_readonly owner_pubkey
                           signer_pubkeys.isEmpty]
              ++ signer_pubkeys.map (fun s => AccountMeta.new_readonly s true),
            data := pack_set_authority authority_type new_authority_pubkey }

/-- Builder `mint_to`. -/
def mint_to (expected_id token_program_id mint_pubkey account_pubkey
    owner_pubkey : Pubkey) (signer_pubkeys : List Pubkey) (amount : U64) :
    Except ProgramError Instruction :=
  match check_program_account expected_id token_program_id with
  | .error e => .error e
  | .ok _ =>
      .ok { program_id := token_program_id,
            accounts := [AccountMeta.new mint_pubkey false,
                         AccountMeta.new account_pubkey false,
                         AccountMeta.new_readonly owner_pubkey
                           signer_pubkeys.isEmpty]
              ++ signer_pubkeys.map (fun s => AccountMeta.new_readonly s true),
            data := (TokenInstruction.mintTo amount).pack }

/-- Builder `burn`. -/
def burn (expected_id token_program_id account_pubkey mint_pubkey
    authority_pubkey : Pubkey) (signer_pubkeys : List Pubkey) (amount : U64) :
    Except ProgramError Instruction :=
  match check_program_account expected_id token_program_id with
  | .error e => .error e
  | .ok _ =>
      .ok { program_id := token_program_id,
            accounts := [AccountMeta.new account_pubkey false,
                         AccountMeta.new mint_pubkey false,
                         AccountMeta.new_readonly authority_pubkey
                           signer_pubkeys.isEmpty]
              ++ signer_pubkeys.map (fun s => AccountMeta.new_readonly s true),
            data := (TokenInstruction.burn amount).pack }

/-- Builder `close_account`. -/
def close_account (expected_id token_program_id account_pubkey
    destination_pubkey owner_pubkey : Pubkey) (signer_pubkeys : List Pubkey) :
    Except ProgramError Instruction :=
  match check_program_account expected_id token_program_id with
  | .error e => .error e
  | .ok _ =>
      .ok { program_id := token_program_id,
            accounts := [AccountMeta.new account_pubkey false,
                         AccountMeta.new destination_pubkey false,
                         AccountMeta.new_readonly owner_pubkey
                           signer_pubkeys.isEmpty]
              ++ signer_pubkeys.map (fun s => AccountMeta.new_readonly s true),
            data := pack_close_account }

/-- Builder `freeze_account`. -/
def freeze_account (expected_id token_program_id account_pubkey mint_pubkey
    owner_pubkey : Pubkey) (signer_pubkeys : List Pubkey) :
    Except ProgramError Instruction :=
  match check_program_account expected_id token_program_id with
  | .error e => .error e
  | .ok _ =>
      .ok { program_id := token_program_id,
            accounts := [AccountMeta.new account_pubkey false,
                         AccountMeta.new_readonly mint_pubkey false,
                         AccountMeta.new_readonly owner_pubkey
                           signer_pubkeys.isEmpty]
              ++ signer_pubkeys.map (fun s => AccountMeta.new_readonly s true),
            data := pack_freeze_account }

/-- Builder `thaw_account`. -/
def thaw_account (expected_id token_program_id account_pubkey mint_pubkey
    owner_pubkey : Pubkey) (signer_pubkeys : List Pubkey) :
    Except ProgramError Instruction :=
  match check_program_account expected_id token_program_id with
  | .error e => .error e
  | .ok _ =>
      .ok { program_id := token_program_id,
            accounts := [AccountMeta.new account_pubkey false,
                         AccountMeta.new_readonly mint_pubkey false,
                         AccountMeta.new_readonly owner_pubkey
                           signer_pubkeys.isEmpty]
              ++ signer_pubkeys.map (fun s => AccountMeta.new_readonly s true),
            data := pack_thaw_account }

/-- Builder `transfer_checked`. -/
def transfer_checked (expected_id token_program_id source_pubkey mint_pubkey
    destination_pubkey authority_pubkey : Pubkey)
    (signer_pubkeys : List Pubkey) (amount : U64) (decimals : Byte) :
    Except ProgramError Instruction :=
  match check_program_account expected_id token_program_id with
  | .error e => .error e
  | .ok _ =>
      .ok { program_id := token_program_id,
            accounts := [AccountMeta.new source_pubkey false,
                         AccountMeta.new_readonly mint_pubkey false,
                         AccountMeta.new destination_pubkey false,
                         AccountMeta.new_readonly authority_pubkey
                           signer_pubkeys.isEmpty]
              ++ signer_pubkeys.map (fun s => AccountMeta.new_readonly s true),
            data := pack_transfer_checked amount decimals }

/-- Builder `approve_checked`. -/
def approve_checked (expected_id token_program_id source_pubkey mint_pubkey
    delegate_pubkey owner_pubkey : Pubkey) (signer_pubkeys : List Pubkey)
    (amount : U64) (decimals : Byte) : Except ProgramError Instruction :=
  match check_program_account expected_id token_program_id with
  | .error e => .error e
  | .ok _ =>
      .ok { program_id := token_program_id,
            accounts := [AccountMeta.new source_pubkey false,
                         AccountMeta.new_readonly mint_pubkey false,
                         AccountMeta.new_readonly delegate_pubkey false,
                         AccountMeta.new_readonly owner_pubkey
                           signer_pubkeys.isEmpty]
              ++ signer_pubkeys.map (fun s => AccountMeta.new_readonly s true),
            data := pack_approve_checked amount decimals }

/-- Builder `mint_to_checked`. -/
def mint_to_checked (expected_id token_program_id mint_pubkey account_pubkey
    owner_pubkey : Pubkey) (signer_pubkeys : List Pubkey) (amount : U64)
    (decimals : Byte) : Except ProgramError Instruction :=
  match check_program_account expected_id token_program_id with
  | .error e => .error e
  | .ok _ =>
      .ok { program_id := token_program_id,
            accounts := [AccountMeta.new mint_pubkey false,
                         AccountMeta.new account_pubkey false,
                         AccountMeta.new_readonly owner_pubkey
                           signer_pubkeys.isEmpty]
              ++ signer_pubkeys.map (fun s => AccountMeta.new_readonly s true),
            data := pack_mint_to_checked amount decimals }

/-- Builder `burn_checked`. -/
def burn_checked (expected_id token_program_id account_pubkey mint_pubkey
    authority_pubkey : Pubkey) (signer_pubkeys : List Pubkey) (amount : U64)
    (decimals : Byte) : Except ProgramError Instruction :=
  match check_program_account expected_id token_program_id with
  | .error e => .error e
  | .ok _ =>
      .ok { program_id := token_program_id,
            accounts := [AccountMeta.new account_pubkey false,
                         AccountMeta.new mint_pubkey false,
                         AccountMeta.new_readonly authority_pubkey
                           signer_pubkeys.isEmpty]
              ++ signer_pubkeys.map (fun s => AccountMeta.new_readonly s true),
            data := pack_burn_checked amount decimals }

section CodecLemmas

/-- Reading a pubkey from a buffer that starts with the 32 key bytes
succeeds and leaves exactly the appended suffix. -/
theorem unpack_pubkey_split (k : Pubkey) (s : List Byte) :
    unpack_pubkey (k.val ++ s) = .ok (k, s) := by
  obtain ⟨l, h⟩ := k
  have hlen : 32 ≤ (l ++ s).length := by simp [h]
  have ht : (l ++ s).take 32 = l := by
    rw [List.take_append_of_le_length (by omega)]
    exact List.take_of_length_le (by omega)
  have hd : (l ++ s).drop 32 = s := by
    rw [List.drop_append_of_le_length (by omega)]
    simp [List.drop_of_length_le (le_of_eq h)]
  rw [unpack_pubkey, dif_pos hlen]
  simp only [Except.ok.injEq, Prod.mk.injEq, Subtype.mk.injEq]
  exact ⟨ht, hd⟩

/-- Lemma `unpack_pubkey_split` specialised to an empty suffix. -/
theorem unpack_pubkey_split_nil (k : Pubkey) :
    unpack_pubkey k.val = .ok (k, []) := by
  simpa using unpack_pubkey_split k []

/-- Decoding an encoded optional pubkey succeeds and leaves exactly the
appended suffix. -/
theorem pack_pubkey_option_round (o : Option Pubkey) (s : List Byte) :
    unpack_pubkey_option (pack_pubkey_option o ++ s) = .ok (o, s) := by
  cases o with
  | none => simp [pack_pubkey_option, unpack_pubkey_option]
  | some k =>
      obtain ⟨l, h⟩ := k
      have hlen : 32 ≤ (l ++ s).length := by simp [h]
      have ht : (l ++ s).take 32 = l := by
        rw [List.take_append_of_le_length (by omega)]
        exact List.take_of_length_le (by omega)
      have hd : (l ++ s).drop 32 = s := by
        rw [List.drop_append_of_le_length (by omega)]
        simp [List.drop_of_length_le (le_of_eq h)]
      simp only [pack_pubkey_option, List.cons_append]
      rw [unpack_pubkey_option]
      rw [if_neg (by simp), dif_pos ⟨rfl, hlen⟩]
      simp only [Except.ok.injEq, Prod.mk.injEq, Option.some.injEq,
        Subtype.mk.injEq]
      exact ⟨ht, hd⟩

/-- Lemma `pack_pubkey_option_round` specialised to an empty suffix. -/
theorem pack_pubkey_option_round_nil (o : Option Pubkey) :
    unpack_pubkey_option (pack_pubkey_option o) = .ok (o, []) := by
  simpa using pack_pubkey_option_round o []

/-- Reading an amount from a buffer starting with the eight little-endian
bytes of `a` recovers `a`, ignoring any suffix. -/
theorem read_amount_le_bytes (a : U64) (s : List Byte) :
    read_amount (u64_to_le_bytes a ++ s) = .ok a := by
  have ha := a.isLt
  simp only [u64_to_le_bytes, List.cons_append, List.nil_append, read_amount]
  congr 1
  apply Fin.ext
  simp only [u64_from_le_bytes]
  omega

/-- Lemma `read_amount_le_bytes` specialised to an empty suffix. -/
theorem read_amount_le_bytes_nil (a : U64) :
    read_amount (u64_to_le_bytes a) = .ok a := by
  simpa using read_amount_le_bytes a []

end CodecLemmas

/-- C1: for every constructible value of the `TokenInstruction` enum declared
in the source (its seven variants), unpacking the result of packing it
returns `Ok` of the original variant with all field values exactly equal. -/
theorem unpack_pack_roundtrip (v : TokenInstruction) :
    TokenInstruction.unpack v.pack = Except.ok v := by
  cases v with
  | initializeMint d ma fa =>
      simp [TokenInstruction.pack, TokenInstruction.unpack,
        unpack_pubkey_split, pack_pubkey_option_round_nil]
  | initializeAccount => decide
  | transfer a =>
      simp [TokenInstruction.pack, TokenInstruction.unpack,
        read_amount_le_bytes_nil, show (3 : Byte).val = 3 from rfl]
  | approve a =>
      simp [TokenInstruction.pack, TokenInstruction.unpack,
        read_amount_le_bytes_nil, show (4 : Byte).val = 4 from rfl]
  | mintTo a =>
      simp [TokenInstruction.pack, TokenInstruction.unpack,
        read_amount_le_bytes_nil, show (7 : Byte).val = 7 from rfl]
  | burn a =>
      simp [TokenInstruction.pack, TokenInstruction.unpack,
        read_amount_le_bytes_nil, show (8 : Byte).val = 8 from rfl]
  | initializeAccount2 owner =>
      simp [TokenInstruction.pack, TokenInstruction.unpack,
        unpack_pubkey_split_nil, show (16 : Byte).val = 16 from rfl]

/-- C2: the decoder rejects, with `InvalidInstruction`, the catalog tags
`2`, `5`, `6`, `9`, `10`, `11` even when followed by sufficient bytes for
their declared field sequences (contradicting the claim and the in-file
test, which expect these decodes to succeed), while a tag outside the
catalog such as `255` is also rejected. -/
theorem unpack_missing_tags :
    TokenInstruction.unpack [2, 1] = .error .invalidInstruction ∧
    TokenInstruction.unpack [5] = .error .invalidInstruction ∧
    TokenInstruction.unpack [6, 0, 0] = .error .invalidInstruction ∧
    TokenInstruction.unpack [9] = .error .invalidInstruction ∧
    TokenInstruction.unpack [10] = .error .invalidInstruction ∧
    TokenInstruction.unpack [11] = .error .invalidInstruction ∧
    TokenInstruction.unpack [255] = .error .invalidInstruction := by
  decide

/-- C3: `pack` of `InitializeMint{decimals:2, mint_authority:[1;32],
freeze_authority:absent}` is `[0,2] ++ [1;32] ++ [0]` and `pack` of
`Transfer{amount:1}` is `[3,1,0,0,0,0,0,0,0]`; but no constructible
`TokenInstruction` packs to the claimed `TransferChecked` vector
`[12,1,0,0,0,0,0,0,0,2]` (the variant is absent from the source enum) and
`unpack` rejects that vector, although the spec-modelled layout for tag 12
does produce exactly it. -/
theorem pack_concrete_vectors :
    (TokenInstruction.initializeMint 2 ⟨List.replicate 32 1, by simp⟩
        none).pack
      = 0 :: 2 :: (List.replicate 32 (1 : Byte) ++ [0]) ∧
    (TokenInstruction.transfer 1).pack = [3, 1, 0, 0, 0, 0, 0, 0, 0] ∧
    (∀ v : TokenInstruction, v.pack ≠ [12, 1, 0, 0, 0, 0, 0, 0, 0, 2]) ∧
    TokenInstruction.unpack [12, 1, 0, 0, 0, 0, 0, 0, 0, 2]
      = .error .invalidInstruction ∧
    pack_transfer_checked 1 2 = [12, 1, 0, 0, 0, 0, 0, 0, 0, 2] := by
  refine ⟨by decide, by decide, ?_, by decide, by decide⟩
  intro v h
  cases v <;> simp [TokenInstruction.pack] at h

/-- Witness for C3: `pack_concrete_vectors` applied at the concrete
instruction `InitializeAccount`, whose packing indeed differs from the
claimed `TransferChecked` byte vector. -/
theorem pack_concrete_vectors_witness :
    (TokenInstruction.initializeAccount.pack
      = [12, 1, 0, 0, 0, 0, 0, 0, 0, 2]) = False :=
  eq_false (pack_concrete_vectors.2.2.1 TokenInstruction.initializeAccount)

/-- C6: the optional-identifier sub-codec: encoding `absent` is exactly the
byte `[0]` and decoding consumes exactly that byte; encoding `present(id)`
is `1` followed by the 32 identifier bytes and decoding consumes exactly
those 33 bytes; decoding fails with `InvalidInstruction` on any discriminant
other than `0` or `1`, and on discriminant `1` followed by fewer than 32
bytes. -/
theorem pubkey_option_codec :
    pack_pubkey_option (none : Option Pubkey) = [0] ∧
    (∀ k : Pubkey, pack_pubkey_option (some k) = 1 :: k.val) ∧
    (∀ s : List Byte,
       unpack_pubkey_option (pack_pubkey_option none ++ s) = .ok (none, s)) ∧
    (∀ (k : Pubkey) (s : List Byte),
       unpack_pubkey_option (pack_pubkey_option (some k) ++ s)
         = .ok (some k, s)) ∧
    (∀ (d : Byte) (r : List Byte), d.val ≠ 0 → d.val ≠ 1 →
       unpack_pubkey_option (d :: r) = .error .invalidInstruction) ∧
    (∀ r : List Byte, r.length < 32 →
       unpack_pubkey_option ((1 : Byte) :: r) = .error .invalidInstruction) := by
  refine ⟨rfl, fun k => rfl, fun s => pack_pubkey_option_round none s,
    fun k s => pack_pubkey_option_round (some k) s, ?_, ?_⟩
  · intro d r h0 h1
    rw [unpack_pubkey_option, if_neg h0, dif_neg (fun hc => h1 hc.1)]
  · intro r hr
    rw [unpack_pubkey_option, if_neg (by simp),
      dif_neg (fun hc => by omega)]

/-- Witness for C6: concrete applications of `pubkey_option_codec`, at
discriminant `2` (neither `0` nor `1`) and at discriminant `1` with an
empty remainder. -/
theorem pubkey_option_codec_witness :
    unpack_pubkey_option [(2 : Byte)] = .error .invalidInstruction ∧
    unpack_pubkey_option [(1 : Byte)] = .error .invalidInstruction :=
  ⟨pubkey_option_codec.2.2.2.2.1 2 [] (by decide) (by decide),
   pubkey_option_codec.2.2.2.2.2 [] (by decide)⟩

/-- C8: the `AuthorityType` codec: `into` maps the four kinds to `0`–`3` in
declaration order; `fromByte` succeeds exactly on bytes `0`–`3` with the
corresponding kind and fails with `InvalidInstruction` on every other byte;
`fromByte` after `into` is the identity. -/
theorem authority_type_codec :
    AuthorityType.into .mintTokens = 0 ∧
    AuthorityType.into .freezeAccount = 1 ∧
    AuthorityType.into .accountOwner = 2 ∧
    AuthorityType.into .closeAccount = 3 ∧
    AuthorityType.fromByte 0 = .ok .mintTokens ∧
    AuthorityType.fromByte 1 = .ok .freezeAccount ∧
    AuthorityType.fromByte 2 = .ok .accountOwner ∧
    AuthorityType.fromByte 3 = .ok .closeAccount ∧
    (∀ b : Byte, b.val ≠ 0 → b.val ≠ 1 → b.val ≠ 2 → b.val ≠ 3 →
       AuthorityType.fromByte b = .error .invalidInstruction) ∧
    (∀ k : AuthorityType, AuthorityType.fromByte k.into = .ok k) := by
  refine ⟨rfl, rfl, rfl, rfl, by decide, by decide, by decide, by decide,
    ?_, ?_⟩
  · intro b h0 h1 h2 h3
    rw [AuthorityType.fromByte, if_neg h0, if_neg h1, if_neg h2, if_neg h3]
  · intro k
    cases k <;> decide

/-- Witness for C8: `authority_type_codec` applied at the concrete byte `4`,
which lies outside `{0,1,2,3}`. -/
theorem authority_type_codec_witness :
    AuthorityType.fromByte 4 = .error .invalidInstruction :=
  authority_type_codec.2.2.2.2.2.2.2.2.1 4 (by decide) (by decide) (by decide)
    (by decide)

/-- A concrete all-zero pubkey, used in concrete witnesses. -/
def pk_zero : Pubkey := ⟨List.replicate 32 0, by simp⟩

/-- A concrete all-one pubkey, used in concrete witnesses. -/
def pk_one : Pubkey := ⟨List.replicate 32 1, by simp⟩

/-- When the supplied target program identifier differs from the expected
one, the program-identity check fails with the identity error. -/
theorem check_program_account_fail {e t : Pubkey} (h : t ≠ e) :
    check_program_account e t = .error .incorrectProgramId := by
  simp [check_program_account, h]

/-- C4: every authority-bearing builder, called with a matching program
identifier, yields an envelope whose account list is its fixed prefix, then
the authority reference with `is_signer` true exactly when the trailing
signer list is empty, then one read-only `is_signer = true` reference per
trailing signer, in the order supplied. -/
theorem authority_convention :
    (∀ (e s d a : Pubkey) (sg : List Pubkey) (amt : U64),
       transfer e e s d a sg amt = .ok
         { program_id := e,
           accounts := [AccountMeta.new s false, AccountMeta.new d false]
             ++ ({ pubkey := a, is_signer := sg.isEmpty, is_writable := false }
               :: sg.map (fun k =>
                    { pubkey := k, is_signer := true, is_writable := false })),
           data := (TokenInstruction.transfer amt).pack }) ∧
    (∀ (e s d a : Pubkey) (sg : List Pubkey) (amt : U64),
       approve e e s d a sg amt = .ok
         { program_id := e,
           accounts := [AccountMeta.new s false, AccountMeta.new_readonly d false]
             ++ ({ pubkey := a, is_signer := sg.isEmpty, is_writable := false }
               :: sg.map (fun k =>
                    { pubkey := k, is_signer := true, is_writable := false })),
           data := (TokenInstruction.approve amt).pack }) ∧
    (∀ (e s a : Pubkey) (sg : List Pubkey),
       revoke e e s a sg = .ok
         { program_id := e,
           accounts := [AccountMeta.new s false]
             ++ ({ pubkey := a, is_signer := sg.isEmpty, is_writable := false }
               :: sg.map (fun k =>
                    { pubkey := k, is_signer := true, is_writable := false })),
           data := pack_revoke }) ∧
    (∀ (e o : Pubkey) (na : Option Pubkey) (ty : AuthorityType) (a : Pubkey)
        (sg : List Pubkey),
       set_authority e e o na ty a sg = .ok
         { program_id := e,
           accounts := [AccountMeta.new o false]
             ++ ({ pubkey := a, is_signer := sg.isEmpty, is_writable := false }
               :: sg.map (fun k =>
                    { pubkey := k, is_signer := true, is_writable := false })),
           data := pack_set_authority ty na }) ∧
    (∀ (e mi ac a : Pubkey) (sg : List Pubkey) (amt : U64),
       mint_to e e mi ac a sg amt = .ok
         { program_id := e,
           accounts := [AccountMeta.new mi false, AccountMeta.new ac false]
             ++ ({ pubkey := a, is_signer := sg.isEmpty, is_writable := false }
               :: sg.map (fun k =>
                    { pubkey := k, is_signer := true, is_writable := false })),
           data := (TokenInstruction.mintTo amt).pack }) ∧
    (∀ (e ac mi a : Pubkey) (sg : List Pubkey) (amt : U64),
       burn e e ac mi a sg amt = .ok
         { program_id := e,
           accounts := [AccountMeta.new ac false, AccountMeta.new mi false]
             ++ ({ pubkey := a, is_signer := sg.isEmpty, is_writable := false }
               :: sg.map (fun k =>
                    { pubkey := k, is_signer := true, is_writable := false })),
           data := (TokenInstruction.burn amt).pack }) ∧
    (∀ (e ac d a : Pubkey) (sg : List Pubkey),
       close_account e e ac d a sg = .ok
         { program_id := e,
           accounts := [AccountMeta.new ac false, AccountMeta.new d false]
             ++ ({ pubkey := a, is_signer := sg.isEmpty, is_writable := false }
               :: sg.map (fun k =>
                    { pubkey := k, is_signer := true, is_writable := false })),
           data := pack_close_account }) ∧
    (∀ (e ac mi a : Pubkey) (sg : List Pubkey),
       freeze_account e e ac mi a sg = .ok
         { program_id := e,
           accounts := [AccountMeta.new ac false, AccountMeta.new_readonly mi false]
             ++ ({ pubkey := a, is_signer := sg.isEmpty, is_writable := false }
               :: sg.map (fun k =>
                    { pubkey := k, is_signer := true, is_writable := false })),
           data := pack_freeze_account }) ∧
    (∀ (e ac mi a : Pubkey) (sg : List Pubkey),
       thaw_account e e ac mi a sg = .ok
         { program_id := e,
           accounts := [AccountMeta.new ac false, AccountMeta.new_readonly mi false]
             ++ ({ pubkey := a, is_signer := sg.isEmpty, is_writable := false }
               :: sg.map (fun k =>
                    { pubkey := k, is_signer := true, is_writable := false })),
           data := pack_thaw_account }) ∧
    (∀ (e s mi d a : Pubkey) (sg : List Pubkey) (amt : U64) (dec : Byte),
       transfer_checked e e s mi d a sg amt dec = .ok
         { program_id := e,
           accounts := [AccountMeta.new s false,
               AccountMeta.new_readonly mi false, AccountMeta.new d false]
             ++ ({ pubkey := a, is_signer := sg.isEmpty, is_writable := false }
               :: sg.map (fun k =>
                    { pubkey := k, is_signer := true, is_writable := false })),
           data := pack_transfer_checked amt dec }) ∧
    (∀ (e s mi d a : Pubkey) (sg : List Pubkey) (amt : U64) (dec : Byte),
       approve_checked e e s mi d a sg amt dec = .ok
         { program_id := e,
           accounts := [AccountMeta.new s false,
               AccountMeta.new_readonly mi false,
               AccountMeta.new_readonly d false]
             ++ ({ pubkey := a, is_signer := sg.isEmpty, is_writable := false }
               :: sg.map (fun k =>
                    { pubkey := k, is_signer := true, is_writable := false })),
           data := pack_approve_checked amt dec }) ∧
    (∀ (e mi ac a : Pubkey) (sg : List Pubkey) (amt : U64) (dec : Byte),
       mint_to_checked e e mi ac a sg amt dec = .ok
         { program_id := e,
           accounts := [AccountMeta.new mi false, AccountMeta.new ac false]
             ++ ({ pubkey := a, is_signer := sg.isEmpty, is_writable := false }
               :: sg.map (fun k =>
                    { pubkey := k, is_signer := true, is_writable := false })),
           data := pack_mint_to_checked amt dec }) ∧
    (∀ (e ac mi a : Pubkey) (sg : List Pubkey) (amt : U64) (dec : Byte),
       burn_checked e e ac mi a sg amt dec = .ok
         { program_id := e,
           accounts := [AccountMeta.new ac false, AccountMeta.new mi false]
             ++ ({ pubkey := a, is_signer := sg.isEmpty, is_writable := false }
               :: sg.map (fun k =>
                    { pubkey := k, is_signer := true, is_writable := false })),
           data := pack_burn_checked amt dec }) := by
  refine ⟨?_, ?_, ?_, ?_, ?_, ?_, ?_, ?_, ?_, ?_, ?_, ?_, ?_⟩ <;>
    intros <;>
    simp [transfer, approve, revoke, set_authority, mint_to, burn,
      close_account, freeze_account, thaw_account, transfer_checked,
      approve_checked, mint_to_checked, burn_checked, check_program_account,
      AccountMeta.new, AccountMeta.new_readonly]

/-- C5: `initialize_multisig` (with a matching program identifier) rejects
with the missing-required-signature error whenever `m` or the signer count
lies outside `[MIN_SIGNERS, MAX_SIGNERS]` or `m` exceeds the signer count,
producing no envelope; and since both bounds are `1`, it can succeed only
with `m = 1` and exactly one signer. -/
theorem initialize_multisig_bounds :
    MIN_SIGNERS = 1 ∧ MAX_SIGNERS = 1 ∧
    (∀ (e ms : Pubkey) (sg : List Pubkey) (m : Byte),
       (¬ (MIN_SIGNERS ≤ m.val ∧ m.val ≤ MAX_SIGNERS)
         ∨ ¬ (MIN_SIGNERS ≤ sg.length ∧ sg.length ≤ MAX_SIGNERS)
         ∨ sg.length < m.val) →
       initialize_multisig e e ms sg m = .error .missingRequiredSignature) ∧
    (∀ (e t ms : Pubkey) (sg : List Pubkey) (m : Byte) (env : Instruction),
       initialize_multisig e t ms sg m = .ok env →
       m.val = 1 ∧ sg.length = 1) := by
  refine ⟨rfl, rfl, ?_, ?_⟩
  · intro e ms sg m hbad
    have hcond : ¬ is_valid_signer_index m.val
        ∨ ¬ is_valid_signer_index sg.length ∨ sg.length < m.val := by
      simp only [is_valid_signer_index, MIN_SIGNERS, MAX_SIGNERS,
        decide_eq_true_eq] at hbad ⊢
      tauto
    simp only [initialize_multisig, check_program_account, if_pos rfl]
    rw [if_pos hcond]
    simp
  · intro e t ms sg m env hok
    simp only [initialize_multisig] at hok
    split at hok
    · exact absurd hok (by simp)
    · split at hok
      · exact absurd hok (by simp)
      · next hcond =>
          simp only [is_valid_signer_index, MIN_SIGNERS, MAX_SIGNERS, not_or,
            not_not, decide_eq_true_eq, not_lt] at hcond
          omega

/-- Witness for C5: `initialize_multisig_bounds` applied at concrete inputs:
`m = 0` with no signers is rejected, and a concrete succeeding call has
`m = 1` with exactly one signer. -/
theorem initialize_multisig_bounds_witness :
    initialize_multisig pk_zero pk_zero pk_zero [] 0
      = .error .missingRequiredSignature ∧
    ((1 : Byte).val = 1 ∧ [pk_one].length = 1) :=
  ⟨initialize_multisig_bounds.2.2.1 pk_zero pk_zero [] 0 (by decide),
   initialize_multisig_bounds.2.2.2 pk_zero pk_zero pk_zero [pk_one] 1
     { program_id := pk_zero,
       accounts := [AccountMeta.new pk_zero false,
                    AccountMeta.new_readonly rent_sysvar_id false,
                    AccountMeta.new_readonly pk_one false],
       data := pack_initialize_multisig 1 } (by decide)⟩

/-- C9: every builder first consults the (spec-modelled) program-identity
check: with a non-matching target program identifier it returns that
check's error and produces no envelope. -/
theorem builders_short_circuit :
    ∀ (e t : Pubkey), t ≠ e →
      (∀ p1 p2 fa dec,
        initialize_mint e t p1 p2 fa dec = .error .incorrectProgramId) ∧
      (∀ p1 p2 p3,
        initialize_account e t p1 p2 p3 = .error .incorrectProgramId) ∧
      (∀ p1 p2 p3,
        initialize_account2 e t p1 p2 p3 = .error .incorrectProgramId) ∧
      (∀ p1 sg m,
        initialize_multisig e t p1 sg m = .error .incorrectProgramId) ∧
      (∀ p1 p2 p3 sg amt,
        transfer e t p1 p2 p3 sg amt = .error .incorrectProgramId) ∧
      (∀ p1 p2 p3 sg amt,
        approve e t p1 p2 p3 sg amt = .error .incorrectProgramId) ∧
      (∀ p1 p2 sg, revoke e t p1 p2 sg = .error .incorrectProgramId) ∧
      (∀ p1 na ty p2 sg,
        set_authority e t p1 na ty p2 sg = .error .incorrectProgramId) ∧
      (∀ p1 p2 p3 sg amt,
        mint_to e t p1 p2 p3 sg amt = .error .incorrectProgramId) ∧
      (∀ p1 p2 p3 sg amt,
        burn e t p1 p2 p3 sg amt = .error .incorrectProgramId) ∧
      (∀ p1 p2 p3 sg,
        close_account e t p1 p2 p3 sg = .error .incorrectProgramId) ∧
      (∀ p1 p2 p3 sg,
        freeze_account e t p1 p2 p3 sg = .error .incorrectProgramId) ∧
      (∀ p1 p2 p3 sg,
        thaw_account e t p1 p2 p3 sg = .error .incorrectProgramId) ∧
      (∀ p1 p2 p3 p4 sg amt dec,
        transfer_checked e t p1 p2 p3 p4 sg amt dec
          = .error .incorrectProgramId) ∧
      (∀ p1 p2 p3 p4 sg amt dec,
        approve_checked e t p1 p2 p3 p4 sg amt dec
          = .error .incorrectProgramId) ∧
      (∀ p1 p2 p3 sg amt dec,
        mint_to_checked e t p1 p2 p3 sg amt dec
          = .error .incorrectProgramId) ∧
      (∀ p1 p2 p3 sg amt dec,
        burn_checked e t p1 p2 p3 sg amt dec = .error .incorrectProgramId) := by
  intro e t h
  have hc := check_program_account_fail h
  refine ⟨?_, ?_, ?_, ?_, ?_, ?_, ?_, ?_, ?_, ?_, ?_, ?_, ?_, ?_, ?_, ?_, ?_⟩ <;>
    intros <;>
    simp [initialize_mint, initialize_account, initialize_account2,
      initialize_multisig, transfer, approve, revoke, set_authority, mint_to,
      burn, close_account, freeze_account, thaw_account, transfer_checked,
      approve_checked, mint_to_checked, burn_checked, hc]

/-- Witness for C9: `builders_short_circuit` applied at the concrete
mismatched pair `pk_one ≠ pk_zero`, for the `initialize_mint` builder. -/
theorem builders_short_circuit_witness :
    initialize_mint pk_zero pk_one pk_zero pk_zero none 0
      = .error .incorrectProgramId :=
  (builders_short_circuit pk_zero pk_one (by decide)).1 pk_zero pk_zero none 0

section TrailingLemmas

/-- A successful pubkey read is unaffected by appending bytes: the same key
is returned and the suffix lands in the leftover. -/
theorem unpack_pubkey_mono {r : List Byte} {k : Pubkey} {r' : List Byte}
    (s : List Byte) (h : unpack_pubkey r = .ok (k, r')) :
    unpack_pubkey (r ++ s) = .ok (k, r' ++ s) := by
  rw [unpack_pubkey] at h
  split at h
  · next hlen =>
      simp only [Except.ok.injEq, Prod.mk.injEq] at h
      obtain ⟨hk, hr⟩ := h
      have hlen2 : 32 ≤ (r ++ s).length := by simp; omega
      rw [unpack_pubkey, dif_pos hlen2]
      simp only [Except.ok.injEq, Prod.mk.injEq]
      constructor
      · rw [← hk]
        apply Subtype.ext
        simpa using List.take_append_of_le_length hlen
      · rw [← hr]
        exact List.drop_append_of_le_length hlen
  · simp at h

/-- A successful optional-pubkey read is unaffected by appending bytes. -/
theorem unpack_pubkey_option_mono {r : List Byte} {o : Option Pubkey}
    {r' : List Byte} (s : List Byte)
    (h : unpack_pubkey_option r = .ok (o, r')) :
    unpack_pubkey_option (r ++ s) = .ok (o, r' ++ s) := by
  cases r with
  | nil => simp [unpack_pubkey_option] at h
  | cons d rest =>
      rw [unpack_pubkey_option] at h
      by_cases h0 : d.val = 0
      · rw [if_pos h0] at h
        simp only [Except.ok.injEq, Prod.mk.injEq] at h
        obtain ⟨ho, hr⟩ := h
        rw [List.cons_append, unpack_pubkey_option, if_pos h0, ← ho, ← hr]
      · rw [if_neg h0] at h
        split at h
        · next hc =>
            simp only [Except.ok.injEq, Prod.mk.injEq] at h
            obtain ⟨ho, hr⟩ := h
            have hc2 : d.val = 1 ∧ 32 ≤ (rest ++ s).length :=
              ⟨hc.1, by simp; omega⟩
            rw [List.cons_append, unpack_pubkey_option, if_neg h0,
              dif_pos hc2]
            simp only [Except.ok.injEq, Prod.mk.injEq]
            constructor
            · rw [← ho]
              simp only [Option.some.injEq, Subtype.mk.injEq]
              exact List.take_append_of_le_length hc.2
            · rw [← hr]
              exact List.drop_append_of_le_length hc.2
        · simp at h

/-- A successful amount read is unaffected by appending bytes (it only
inspects the first eight bytes). -/
theorem read_amount_mono {r : List Byte} {a : U64} (s : List Byte)
    (h : read_amount r = .ok a) : read_amount (r ++ s) = .ok a := by
  rcases r with _ | ⟨b0, _ | ⟨b1, _ | ⟨b2, _ | ⟨b3, _ | ⟨b4, _ |
    ⟨b5, _ | ⟨b6, _ | ⟨b7, t⟩⟩⟩⟩⟩⟩⟩⟩ <;>
    simp_all [read_amount, List.cons_append]

/-- A failed pubkey read fails with `InvalidInstruction`. -/
theorem unpack_pubkey_error {r : List Byte} {e : ProgramError}
    (h : unpack_pubkey r = .error e) : e = .invalidInstruction := by
  rw [unpack_pubkey] at h
  split at h
  · simp at h
  · exact (Except.error.inj h).symm

/-- A failed optional-pubkey read fails with `InvalidInstruction`. -/
theorem unpack_pubkey_option_error {r : List Byte} {e : ProgramError}
    (h : unpack_pubkey_option r = .error e) : e = .invalidInstruction := by
  cases r with
  | nil =>
      rw [unpack_pubkey_option] at h
      exact (Except.error.inj h).symm
  | cons d rest =>
      rw [unpack_pubkey_option] at h
      split at h
      · simp at h
      · split at h
        · simp at h
        · exact (Except.error.inj h).symm

/-- A failed amount read fails with `InvalidInstruction`. -/
theorem read_amount_error {r : List Byte} {e : ProgramError}
    (h : read_amount r = .error e) : e = .invalidInstruction := by
  rcases r with _ | ⟨b0, _ | ⟨b1, _ | ⟨b2, _ | ⟨b3, _ | ⟨b4, _ |
    ⟨b5, _ | ⟨b6, _ | ⟨b7, t⟩⟩⟩⟩⟩⟩⟩⟩ <;>
    simp_all [read_amount]

end TrailingLemmas

/-- C7: trailing-byte tolerance: whenever `unpack` decodes a buffer
successfully, appending any extra bytes leaves the decode successful with
the same instruction. -/
theorem unpack_trailing (b s : List Byte) (i : TokenInstruction)
    (h : TokenInstruction.unpack b = .ok i) :
    TokenInstruction.unpack (b ++ s) = .ok i := by
  cases b with
  | nil => simp [TokenInstruction.unpack] at h
  | cons tag rest =>
      rw [List.cons_append]
      simp only [TokenInstruction.unpack] at h ⊢
      by_cases h0 : tag.val = 0
      · rw [if_pos h0] at h ⊢
        cases rest with
        | nil => simp at h
        | cons d rest2 =>
            cases hp : unpack_pubkey rest2 with
            | error e => simp [hp] at h
            | ok p =>
                obtain ⟨ma, rest3⟩ := p
                cases hq : unpack_pubkey_option rest3 with
                | error e => simp [hp, hq] at h
                | ok q =>
                    obtain ⟨fa, rest4⟩ := q
                    simp only [hp, hq] at h
                    simp only [List.cons_append, unpack_pubkey_mono s hp,
                      unpack_pubkey_option_mono s hq]
                    exact h
      · by_cases h1 : tag.val = 1
        · rw [if_neg h0, if_pos h1] at h ⊢
          exact h
        · by_cases h34 : tag.val = 3 ∨ tag.val = 4 ∨ tag.val = 7 ∨ tag.val = 8
          · rw [if_neg h0, if_neg h1, if_pos h34] at h ⊢
            cases ha : read_amount rest with
            | error e => simp [ha] at h
            | ok a =>
                simp only [ha] at h
                simp only [read_amount_mono s ha]
                exact h
          · by_cases h16 : tag.val = 16
            · rw [if_neg h0, if_neg h1, if_neg h34, if_pos h16] at h ⊢
              cases hp : unpack_pubkey rest with
              | error e => simp [hp] at h
              | ok p =>
                  obtain ⟨owner, rest2⟩ := p
                  simp only [hp] at h
                  simp only [unpack_pubkey_mono s hp]
                  exact h
            · rw [if_neg h0, if_neg h1, if_neg h34, if_neg h16] at h
              simp at h

/-- Witness for C7: `unpack_trailing` applied at the concrete buffer `[1]`
(decoding to `InitializeAccount`) with trailing bytes `[2, 2]`. -/
theorem unpack_trailing_witness :
    TokenInstruction.unpack ([1] ++ [2, 2]) = .ok .initializeAccount :=
  unpack_trailing [1] [2, 2] .initializeAccount (by decide)

/-- C10: totality of the decoder: on every byte sequence whatsoever,
`unpack` returns either `Ok` of some instruction or the
`InvalidInstruction` error — every read is guarded, so there is no other
outcome. -/
theorem unpack_total (input : List Byte) :
    TokenInstruction.unpack input = .error .invalidInstruction
    ∨ ∃ i, TokenInstruction.unpack input = .ok i := by
  cases input with
  | nil => left; rfl
  | cons tag rest =>
      simp only [TokenInstruction.unpack]
      by_cases h0 : tag.val = 0
      · rw [if_pos h0]
        cases rest with
        | nil => left; rfl
        | cons d rest2 =>
            cases hp : unpack_pubkey rest2 with
            | error e =>
                left
                simp only [hp]
                rw [unpack_pubkey_error hp]
            | ok p =>
                obtain ⟨ma, rest3⟩ := p
                cases hq : unpack_pubkey_option rest3 with
                | error e =>
                    left
                    simp only [hp, hq]
                    rw [unpack_pubkey_option_error hq]
                | ok q =>
                    obtain ⟨fa, rest4⟩ := q
                    right
                    refine ⟨TokenInstruction.initializeMint d ma fa, ?_⟩
                    simp only [hp, hq]
      · by_cases h1 : tag.val = 1
        · rw [if_neg h0, if_pos h1]
          right
          exact ⟨_, rfl⟩
        · by_cases h34 : tag.val = 3 ∨ tag.val = 4 ∨ tag.val = 7 ∨ tag.val = 8
          · rw [if_neg h0, if_neg h1, if_pos h34]
            cases ha : read_amount rest with
            | error e =>
                left
                simp only [ha]
                rw [read_amount_error ha]
            | ok a =>
                right
                by_cases t3 : tag.val = 3
                · refine ⟨TokenInstruction.transfer a, ?_⟩
                  simp only [ha, if_pos t3]
                · by_cases t4 : tag.val = 4
                  · refine ⟨TokenInstruction.approve a, ?_⟩
                    simp only [ha, if_neg t3, if_pos t4]
                  · by_cases t7 : tag.val = 7
                    · refine ⟨TokenInstruction.mintTo a, ?_⟩
                      simp only [ha, if_neg t3, if_neg t4, if_pos t7]
                    · refine ⟨TokenInstruction.burn a, ?_⟩
                      simp only [ha, if_neg t3, if_neg t4, if_neg t7]
          · by_cases h16 : tag.val = 16
            · rw [if_neg h0, if_neg h1, if_neg h34, if_pos h16]
              cases hp : unpack_pubkey rest with
              | error e =>
                  left
                  simp only [hp]
                  rw [unpack_pubkey_error hp]
              | ok p =>
                  obtain ⟨owner, rest2⟩ := p
                  right
                  refine ⟨TokenInstruction.initializeAccount2 owner, ?_⟩
                  simp only [hp]
            · rw [if_neg h0, if_neg h1, if_neg h34, if_neg h16]
              left
              rfl

end SplToken
